import Mathlib

/-!
Verification development for the Risk-Mining-System rule compilation and
evaluation engine (src/rule_compile/rule_compiler.py, src/autoeval/evaluator.py,
src/main.py).

The Python source is shallowly embedded: Python dicts of strings become
association lists, Python floats become rationals (exact arithmetic; no claim
below depends on binary floating-point rounding), and fallible operations
return Except values.  CPython standard-library behaviour that the source
relies on (str.replace, the re word pattern, ast.parse acceptance, the
module-level indentation rule of exec/compile) is modelled by executable
definitions over character lists, restricted to the ASCII inputs that the
rule DSL uses.  All definitions are computable so that concrete runs can be
settled by kernel evaluation.
-/

namespace RiskMining

/-! ### CPython string primitives used by the source -/

/-- One replacement pass of CPython `str.replace`: scan left to right,
replacing each non-overlapping occurrence of `pat` by `rep`.  The `Nat`
argument is recursion fuel; each step consumes at least one input character,
so `input.length + 1` fuel always suffices. -/
def replaceAllAux (pat rep : List Char) : Nat → List Char → List Char
  | 0, l => l
  | _fuel+1, [] => []
  | fuel+1, c :: cs =>
    if pat.isPrefixOf (c :: cs) then rep ++ replaceAllAux pat rep fuel ((c :: cs).drop pat.length)
    else c :: replaceAllAux pat rep fuel cs

/-- CPython `s.replace(pat, rep)` for a non-empty pattern (the source only
replaces the non-empty patterns `&&`, `||` and `!`). -/
def pyStrReplace (s pat rep : String) : String :=
  if pat.data.isEmpty then s
  else String.mk (replaceAllAux pat.data rep.data (s.data.length + 1) s.data)

/-- Helper for CPython substring containment (`needle in hay`). -/
def containsSubAux (needle : List Char) : List Char → Bool
  | [] => false
  | c :: cs => needle.isPrefixOf (c :: cs) || containsSubAux needle cs

/-- CPython `needle in hay` on strings. -/
def strContains (hay needle : String) : Bool :=
  needle.data.isEmpty || containsSubAux needle.data hay.data

/-- ASCII word character, the `\w` class of the `re` module restricted to the
ASCII identifiers and numbers the DSL uses. -/
def isWordChar (c : Char) : Bool := c.isAlphanum || c = '_'

/-- First character class of the identifier pattern `[a-zA-Z_]`. -/
def isIdentStart (c : Char) : Bool := c.isAlpha || c = '_'

/-! ### Model of `ast.parse` acceptance (rule_compiler.py line 71)

`_validate_dsl_syntax` accepts a DSL string iff `ast.parse` does not raise
SyntaxError on the operator-substituted text.  We model acceptance by a
tokenizer plus a recursive-descent recognizer for the Python expression
grammar fragment reachable from translated DSL text (boolean operators,
chained comparisons, arithmetic, unary sign, calls, parentheses, names,
numeric literals), with the empty token stream accepted as the empty module
(CPython: `ast.parse("")` succeeds).  The recognizer is deliberately a
restriction of the full Python grammar: every string this file evaluates it
on is accepted or rejected exactly as CPython does. -/

inductive PyTok where
  | name (s : String)
  | num (s : String)
  | kwAnd
  | kwOr
  | kwNot
  | ltTok
  | gtTok
  | leTok
  | geTok
  | eqTok
  | neTok
  | assign
  | plus
  | minus
  | star
  | slash
  | lparen
  | rparen
  | comma
deriving DecidableEq, Repr

/-- Comparison-operator tokens (the operands of a Python `comparison`). -/
def cmpTok : PyTok → Bool
  | PyTok.ltTok | PyTok.gtTok | PyTok.leTok | PyTok.geTok | PyTok.eqTok | PyTok.neTok => true
  | _ => false

/-- Tokenizer for the Python expression fragment.  Returns `none` on a
character that CPython cannot tokenize in an expression.  Fuel decreases every
step and every step consumes at least one character. -/
def tokenizeAux : Nat → List Char → List PyTok → Option (List PyTok)
  | 0, _, _ => none
  | _fuel+1, [], acc => some acc.reverse
  | fuel+1, c :: cs, acc =>
    if c = ' ' then tokenizeAux fuel cs acc
    else if isIdentStart c then
      let run := (c :: cs).takeWhile isWordChar
      let rest := (c :: cs).dropWhile isWordChar
      let s := String.mk run
      let tok := if s = "and" then PyTok.kwAnd
                 else if s = "or" then PyTok.kwOr
                 else if s = "not" then PyTok.kwNot
                 else PyTok.name s
      tokenizeAux fuel rest (tok :: acc)
    else if c.isDigit then
      let ds := (c :: cs).takeWhile Char.isDigit
      let rest1 := (c :: cs).dropWhile Char.isDigit
      match rest1 with
      | '.' :: cs2 =>
        tokenizeAux fuel (cs2.dropWhile Char.isDigit)
          (PyTok.num (String.mk (ds ++ '.' :: cs2.takeWhile Char.isDigit)) :: acc)
      | _ => tokenizeAux fuel rest1 (PyTok.num (String.mk ds) :: acc)
    else
      match c, cs with
      | '<', '=' :: cs2 => tokenizeAux fuel cs2 (PyTok.leTok :: acc)
      | '>', '=' :: cs2 => tokenizeAux fuel cs2 (PyTok.geTok :: acc)
      | '=', '=' :: cs2 => tokenizeAux fuel cs2 (PyTok.eqTok :: acc)
      | '!', '=' :: cs2 => tokenizeAux fuel cs2 (PyTok.neTok :: acc)
      | '<', cs1 => tokenizeAux fuel cs1 (PyTok.ltTok :: acc)
      | '>', cs1 => tokenizeAux fuel cs1 (PyTok.gtTok :: acc)
      | '=', cs1 => tokenizeAux fuel cs1 (PyTok.assign :: acc)
      | '+', cs1 => tokenizeAux fuel cs1 (PyTok.plus :: acc)
      | '-', cs1 => tokenizeAux fuel cs1 (PyTok.minus :: acc)
      | '*', cs1 => tokenizeAux fuel cs1 (PyTok.star :: acc)
      | '/', cs1 => tokenizeAux fuel cs1 (PyTok.slash :: acc)
      | '(', cs1 => tokenizeAux fuel cs1 (PyTok.lparen :: acc)
      | ')', cs1 => tokenizeAux fuel cs1 (PyTok.rparen :: acc)
      | ',', cs1 => tokenizeAux fuel cs1 (PyTok.comma :: acc)
      | _, _ => none

/-- Tokenize a whole string. -/
def tokenize (s : String) : Option (List PyTok) :=
  tokenizeAux (s.data.length + 1) s.data []

/-- Recursive-descent recognizer.  The second argument selects the grammar
level: 0 or-test, 1 and-test, 2 not-test, 3 comparison, 4 additive, 5
multiplicative, 6 signed factor, 7 atom, 8 call-trailer loop, 9 argument
list.  It returns the unconsumed tokens on success. -/
def parseLevel : Nat → Nat → List PyTok → Option (List PyTok)
  | 0, _, _ => none
  | fuel+1, 0, toks =>
    (match parseLevel fuel 1 toks with
     | some (PyTok.kwOr :: rest) => parseLevel fuel 0 rest
     | r => r)
  | fuel+1, 1, toks =>
    (match parseLevel fuel 2 toks with
     | some (PyTok.kwAnd :: rest) => parseLevel fuel 1 rest
     | r => r)
  | fuel+1, 2, toks =>
    (match toks with
     | PyTok.kwNot :: rest => parseLevel fuel 2 rest
     | _ => parseLevel fuel 3 toks)
  | fuel+1, 3, toks =>
    (match parseLevel fuel 4 toks with
     | some (t :: rest) => if cmpTok t then parseLevel fuel 3 rest else some (t :: rest)
     | r => r)
  | fuel+1, 4, toks =>
    (match parseLevel fuel 5 toks with
     | some (PyTok.plus :: rest) => parseLevel fuel 4 rest
     | some (PyTok.minus :: rest) => parseLevel fuel 4 rest
     | r => r)
  | fuel+1, 5, toks =>
    (match parseLevel fuel 6 toks with
     | some (PyTok.star :: rest) => parseLevel fuel 5 rest
     | some (PyTok.slash :: rest) => parseLevel fuel 5 rest
     | r => r)
  | fuel+1, 6, toks =>
    (match toks with
     | PyTok.plus :: rest => parseLevel fuel 6 rest
     | PyTok.minus :: rest => parseLevel fuel 6 rest
     | _ => parseLevel fuel 7 toks)
  | fuel+1, 7, toks =>
    (match toks with
     | PyTok.name _ :: rest => parseLevel fuel 8 rest
     | PyTok.num _ :: rest => parseLevel fuel 8 rest
     | PyTok.lparen :: rest =>
       (match parseLevel fuel 0 rest with
        | some (PyTok.rparen :: rest2) => parseLevel fuel 8 rest2
        | _ => none)
     | _ => none)
  | fuel+1, 8, toks =>
    (match toks with
     | PyTok.lparen :: PyTok.rparen :: rest => parseLevel fuel 8 rest
     | PyTok.lparen :: rest =>
       (match parseLevel fuel 9 rest with
        | some (PyTok.rparen :: rest2) => parseLevel fuel 8 rest2
        | _ => none)
     | _ => some toks)
  | fuel+1, 9, toks =>
    (match parseLevel fuel 0 toks with
     | some (PyTok.comma :: rest) => parseLevel fuel 9 rest
     | r => r)
  | _+1, _+10, _ => none

/-- Acceptance by `ast.parse` on the modelled fragment: the input tokenizes,
and is either empty (empty module) or one full expression statement. -/
def pyParseAccepts (s : String) : Bool :=
  match tokenize s with
  | none => false
  | some [] => true
  | some toks =>
    match parseLevel (12 * toks.length + 24) 0 toks with
    | some [] => true
    | _ => false

/-! ### rule_compiler.py — RuleCompiler -/

/-- Operator whitelist declared in `RuleCompiler.__init__` (lines 21-24).
It is declared but never consulted by `_validate_dsl_syntax` (the source
comment at line 73-74 leaves the operator check unimplemented). -/
def allowedOperators : List String :=
  ["+", "-", "*", "/", ">", "<", ">=", "<=", "==", "!=", "&&", "||", "!", "(", ")"]

/-- Function whitelist declared in `RuleCompiler.__init__` (line 26). -/
def allowedFunctions : List String := ["abs", "max", "min"]

/-- Operator substitution shared by `_validate_dsl_syntax` (line 68) and
`_translate_to_python` (line 142):
`dsl.replace('&&', ' and ').replace('||', ' or ').replace('!', ' not ')`.
Note the final replacement also rewrites the `!` of `!=`. -/
def translateToPython (dsl : String) : String :=
  pyStrReplace (pyStrReplace (pyStrReplace dsl "&&" " and ") "||" " or ") "!" " not "

/-- `RuleCompiler._validate_dsl_syntax` (lines 64-79): substitute the logical
operators, then return whether `ast.parse` accepts the result (True), or
raises SyntaxError (False). -/
def validateDslSyntaxOk (dsl : String) : Bool :=
  pyParseAccepts (translateToPython dsl)

/-- Word extraction of `_validate_variable_references` (line 85-86): all
matches of `\b([a-zA-Z_]\w*)\b`, i.e. the maximal ASCII word runs whose
first character is a letter or underscore (runs led by a digit contain no
match because the run prefix blocks the word boundary). -/
def wordRunsAux : Nat → List Char → List String → List String
  | 0, _, acc => acc.reverse
  | _fuel+1, [], acc => acc.reverse
  | fuel+1, c :: cs, acc =>
    if isIdentStart c then
      wordRunsAux fuel ((c :: cs).dropWhile isWordChar)
        (String.mk ((c :: cs).takeWhile isWordChar) :: acc)
    else if isWordChar c then
      wordRunsAux fuel ((c :: cs).dropWhile isWordChar) acc
    else wordRunsAux fuel cs acc

/-- All identifier occurrences in a DSL string, in textual order. -/
def wordRuns (s : String) : List String :=
  wordRunsAux (s.data.length + 1) s.data []

/-- Keyword filter of `_validate_variable_references` (line 89): tokens
excluded from the variable check (together with `allowed_functions`, whose
members are already in this set). -/
def dslKeywords : List String :=
  ["and", "or", "not", "True", "False", "abs", "max", "min"]

/-- The set `variables_in_dsl` (line 90): word matches that are neither
keywords nor allowed functions.  The source builds a Python set; we keep the
first-occurrence order, which cannot affect the boolean verdict below. -/
def variablesInDsl (dsl : String) : List String :=
  (wordRuns dsl).filter
    (fun v => !(dslKeywords.contains v) && !(allowedFunctions.contains v))

/-- The skip test at line 95: `var.startswith('Q') and '_' in var`. -/
def qVarSkip (v : String) : Bool :=
  (match v.data with
   | 'Q' :: _ => true
   | _ => false) && v.data.contains '_'

/-- Python key-membership `var in variables_used` on the modelled dict. -/
def keyMem (variables_used : List (String × String)) (k : String) : Bool :=
  variables_used.any (fun p => p.1 == k)

/-- Loop body of `_validate_variable_references` (lines 93-100): skip the
`Q`-pattern variables, return False on the first identifier missing from
`variables_used`, True if none is missing. -/
def checkVariablesLoop (variables_used : List (String × String)) : List String → Bool
  | [] => true
  | v :: vs =>
    if qVarSkip v then checkVariablesLoop variables_used vs
    else if keyMem variables_used v then checkVariablesLoop variables_used vs
    else false

/-- `RuleCompiler._validate_variable_references` (lines 81-102). -/
def validateVariableReferences (dsl : String) (variables_used : List (String × String)) : Bool :=
  checkVariablesLoop variables_used (variablesInDsl dsl)

/-- `RuleCompiler._has_division_by_zero_risk` (lines 104-113): textual test
for a slash followed (possibly after one space) by the digit zero. -/
def hasDivisionByZeroRisk (dsl : String) : Bool :=
  if strContains dsl "/" then strContains dsl "/0" || strContains dsl "/ 0"
  else false

/-- RuleDefinition as consumed by the compiler: the six required fields of
`validate_rule` (line 40), with `variables_used` an association list.  The
remaining advisory fields (expected_coverage, edge_cases, stats_source) are
never read by the compiler or evaluator and are omitted from the model. -/
structure RuleDefinition where
  id : String
  rule_text : String
  dsl : String
  variables_used : List (String × String)
  period : String
  industry_scope : String
deriving DecidableEq, Repr

/-- `RuleCompiler.validate_rule` (lines 28-62).  The required-field presence
loop (lines 40-44) is vacuously satisfied by a fully populated
RuleDefinition, which is what every claim quantifies over.  The
division-risk check (lines 56-59) is executed but only emits a log warning:
its result does not influence the returned value. -/
def validateRule (rule : RuleDefinition) : Bool :=
  if !(validateDslSyntaxOk rule.dsl) then false
  else if !(validateVariableReferences rule.dsl rule.variables_used) then false
  else
    let _riskOnlyWarns := hasDivisionByZeroRisk rule.dsl
    true

/-! ### rule_compiler.py — `_create_execution_function` (lines 148-176)

The source builds the text of a Python function inside an f-string and runs
`exec(func_code, namespace)`.  The f-string is written inside a method body,
so every line of it carries the surrounding eight-space indentation.
`funcCodeA ++ python_expr ++ funcCodeB` below is the exact text CPython
receives (the doubled braces of the source f-string produce the single
braces seen in `funcCodeB`). -/

/-- Text of `func_code` before the interpolated `{python_expr}`. -/
def funcCodeA : String :=
  "\n        def execute_rule(data):\n            try:\n                # 确保所有需要的变量都在数据中\n                for var_name, var_desc in variables_used.items():\n                    if var_name not in data:\n                        # 处理Q分位数变量\n                        if var_name.startswith('Q') and '_' in var_name:\n                            # 这里可以添加Q分位数变量的处理逻辑\n                            pass\n                        else:\n                            return False\n                \n                # 执行表达式\n                return bool("

/-- Text of `func_code` after the interpolated `{python_expr}`. -/
def funcCodeB : String :=
  ")\n            except Exception as e:\n                # 记录错误但不中断流程\n                logger.error(f\"执行规则时出错: {str(e)}\")\n                return False\n        "

/-- The complete `func_code` f-string (lines 151-170). -/
def funcCode (python_expr : String) : String :=
  funcCodeA ++ python_expr ++ funcCodeB

/-- Module-level indentation scan of the CPython tokenizer: skipping blank
lines, is the first token of the source indented?  `exec`/`compile` raise
IndentationError exactly when this holds for a module whose first logical
line carries leading spaces, which is the situation `func_code` creates.
The Bool argument records whether the current line has seen leading
spaces. -/
def firstTokenIndentedAux (sawSpace : Bool) : List Char → Bool
  | [] => false
  | c :: cs =>
    if c = '\n' then firstTokenIndentedAux false cs
    else if c = ' ' then firstTokenIndentedAux true cs
    else sawSpace

/-- CPython `exec` rejects this module source with IndentationError. -/
def pyExecIndentErr (code : String) : Bool :=
  firstTokenIndentedAux false code.data

/-- Exception outcome of the compilation path.  `indentationError` is what
`exec(func_code, namespace)` raises for the indented `func_code`. -/
inductive PyError where
  | indentationError
deriving DecidableEq, Repr

/-- The function object `exec` would have defined: its free text.  (It is
never produced; see `createExecutionFunction`.) -/
structure GeneratedFunction where
  python_expr : String
  variables_used : List (String × String)
deriving DecidableEq, Repr

/-- `RuleCompiler._create_execution_function` (lines 148-176): build
`func_code`, then `exec(func_code, namespace)`.  Because `func_code` is
indented, `exec` raises IndentationError before any function object is
created, so the `.ok` branch is unreachable for every input. -/
def createExecutionFunction (python_expr : String)
    (variables_used : List (String × String)) : Except PyError GeneratedFunction :=
  if pyExecIndentErr (funcCode python_expr) then Except.error PyError.indentationError
  else Except.ok ⟨python_expr, variables_used⟩

/-- Compiled rule: the input rule copied (`rule.copy()`, line 127) plus the
two added keys `python_expression` (line 131) and `execute_function`
(line 134). -/
structure CompiledRule where
  rule : RuleDefinition
  python_expression : String
  execute_function : GeneratedFunction
deriving DecidableEq, Repr

/-- `RuleCompiler.compile_rule` (lines 115-137).  Every exception raised by
`_create_execution_function` propagates out of `compile_rule`, modelled by
the `Except` error. -/
def compileRule (rule : RuleDefinition) : Except PyError CompiledRule :=
  match createExecutionFunction (translateToPython rule.dsl) rule.variables_used with
  | Except.error e => Except.error e
  | Except.ok f => Except.ok ⟨rule, translateToPython rule.dsl, f⟩

/-- Stage 4 of `RiskMiningSystem.run_pipeline` (main.py lines 79-83): for
each rule, validate; if valid, compile and append.  The loop body has no
exception handler, and the surrounding `try` of `run_pipeline` re-raises
(lines 98-100), so the first exception from `compile_rule` aborts the whole
batch: the error outcome carries no partial results. -/
def compileStage : List RuleDefinition → Except PyError (List CompiledRule)
  | [] => Except.ok []
  | r :: rs =>
    if validateRule r then
      match compileRule r with
      | Except.error e => Except.error e
      | Except.ok c =>
        match compileStage rs with
        | Except.error e => Except.error e
        | Except.ok cs => Except.ok (c :: cs)
    else compileStage rs

/-! ### autoeval/evaluator.py — RuleEvaluator

Claims C7 and C8 concern the ordering, selection and scoring of rules that
already carry their metrics and overall score, so the model takes the
evaluated rules (id, overall_score, metrics dict) as input.  Python floats
are modelled as rationals. -/

/-- Python `min` on two numbers (used to model the clamping at line 179). -/
def pyMin (a b : ℚ) : ℚ := if a ≤ b then a else b

/-- Python `max` on two numbers (used to model the clamping at line 179). -/
def pyMax (a b : ℚ) : ℚ := if a ≤ b then b else a

/-- The normalization at line 179: `max(0.0, min(1.0, value))`. -/
def clamp01 (v : ℚ) : ℚ := pyMax 0 (pyMin 1 v)

/-- Association lookup on a metrics dict; `none` models `key not in dict`. -/
def lookupMetric : List (String × ℚ) → String → Option ℚ
  | [], _ => none
  | (k, v) :: rest, key => if k == key then some v else lookupMetric rest key

/-- The weight dict built in `RuleEvaluator.__init__` (lines 22-28). -/
def codeMetricWeights : List (String × ℚ) :=
  [("coverage", mkRat 2 10), ("anomaly_lift", mkRat 3 10), ("stability", mkRat 2 10),
   ("specificity", mkRat 2 10), ("consistency", mkRat 1 10)]

/-- `RuleEvaluator._calculate_overall_score` (lines 170-182): iterate the
weight mapping; for each metric present in the metrics dict, add
`clamp01(value) * weight` to the accumulator. -/
def calculateOverallScore (weights metrics : List (String × ℚ)) : ℚ :=
  weights.foldl
    (fun acc nw =>
      match lookupMetric metrics nw.1 with
      | some v => acc + clamp01 v * nw.2
      | none => acc)
    0

/-- An evaluated rule as it reaches the sorting and selection steps of
`evaluate_and_select_rules`: every such dict has been given an
`overall_score` (line 57) and a `metrics` dict (line 50). -/
structure EvaluatedRule where
  id : String
  overall_score : ℚ
  metrics : List (String × ℚ)
deriving DecidableEq, Repr

/-- `rule['metrics'].get('coverage', 0.0)` (line 196). -/
def coverageOf (r : EvaluatedRule) : ℚ :=
  (lookupMetric r.metrics "coverage").getD 0

/-- The three configuration entries the evaluator reads with `.get` and a
default: `top_n_rules` (line 187), `min_coverage` (line 191), `max_coverage`
(line 192).  `none` models an absent key. -/
structure EvalConfig where
  top_n_rules : Option Nat
  min_coverage : Option ℚ
  max_coverage : Option ℚ
deriving DecidableEq, Repr

/-- `self.config.get('top_n_rules', 10)`. -/
def topN (cfg : EvalConfig) : Nat := cfg.top_n_rules.getD 10

/-- `self.config.get('min_coverage', 0.02)`. -/
def minCov (cfg : EvalConfig) : ℚ := cfg.min_coverage.getD (mkRat 2 100)

/-- `self.config.get('max_coverage', 0.08)`. -/
def maxCov (cfg : EvalConfig) : ℚ := cfg.max_coverage.getD (mkRat 8 100)

/-- Boolean form of the sort key comparison: rule `a` may come before rule
`b` in a sort by `overall_score` descending. -/
def scoreDescLeB (a b : EvaluatedRule) : Bool :=
  decide (b.overall_score ≤ a.overall_score)

/-- The sort relation of line 60, `sort(key=..., reverse=True)`, as a
proposition. -/
def scoreDescRel (a b : EvaluatedRule) : Prop := scoreDescLeB a b = true

instance : DecidableRel scoreDescRel :=
  fun _a _b => inferInstanceAs (Decidable (_ = true))

instance : IsTotal EvaluatedRule scoreDescRel :=
  ⟨fun a b => by
    simp only [scoreDescRel, scoreDescLeB, decide_eq_true_eq]
    exact le_total b.overall_score a.overall_score⟩

instance : IsTrans EvaluatedRule scoreDescRel :=
  ⟨fun _ _ _ hab hbc => by
    simp only [scoreDescRel, scoreDescLeB, decide_eq_true_eq] at *
    exact le_trans hbc hab⟩

/-- Line 60: `evaluated_rules.sort(key=lambda x: x.get('overall_score', 0),
reverse=True)`.  CPython list.sort is a stable sort; a stable sort by a
total preorder is unique as a function of its input, so the model may use
any stable sorting algorithm — here Mathlib insertion sort, which is stable
for `scoreDescRel`.  Ties keep their input order; no further key is
consulted. -/
def pySortByScoreDesc (rules : List EvaluatedRule) : List EvaluatedRule :=
  List.insertionSort scoreDescRel rules

/-- The coverage band test of lines 195-197:
`min_coverage <= coverage <= max_coverage`. -/
def inBand (mn mx : ℚ) (r : EvaluatedRule) : Bool :=
  decide (mn ≤ coverageOf r) && decide (coverageOf r ≤ mx)

/-- The filter loop of lines 194-198: append, in order, the selected rules
whose coverage lies in the band. -/
def bandFilterLoop (mn mx : ℚ) : List EvaluatedRule → List EvaluatedRule
  | [] => []
  | r :: rs =>
    if inBand mn mx r then r :: bandFilterLoop mn mx rs
    else bandFilterLoop mn mx rs

/-- `RuleEvaluator._select_optimal_rules` (lines 184-200): slice the first
`top_n` rules (line 188), then keep those in the coverage band. -/
def selectOptimalRules (cfg : EvalConfig) (evaluated : List EvaluatedRule) :
    List EvaluatedRule :=
  bandFilterLoop (minCov cfg) (maxCov cfg) (evaluated.take (topN cfg))

/-- Sorting plus selection steps of `evaluate_and_select_rules` (lines
60-63), taking the already-scored rules as input. -/
def evaluateAndSelectRules (cfg : EvalConfig) (evaluated : List EvaluatedRule) :
    List EvaluatedRule :=
  selectOptimalRules cfg (pySortByScoreDesc evaluated)

/-! ### Definitions written from the specification text

These definitions follow the words of the specification, not the source;
they exist only to state refinement comparisons. -/

/-- Modelled from the spec: the reserved statistical-reference pattern
`Q<number>_<base>_industry` — the letter `Q`, one or more digits, an
underscore, a non-empty base name, and the suffix `_industry`. -/
def specQuantileRefPattern (s : String) : Bool :=
  match s.data with
  | 'Q' :: rest =>
    let ds := rest.takeWhile Char.isDigit
    let afterDigits := rest.dropWhile Char.isDigit
    !ds.isEmpty &&
      (match afterDigits with
       | '_' :: mid =>
         ("_industry".data.isSuffixOf mid) && decide ("_industry".data.length < mid.length)
       | _ => false)
  | _ => false

/-- Byte-wise strict order on char lists, modelling CPython string
comparison for the ASCII rule ids. -/
def strLtB : List Char → List Char → Bool
  | [], [] => false
  | [], _ :: _ => true
  | _ :: _, [] => false
  | a :: as, b :: bs => if a.toNat < b.toNat then true else if a = b then strLtB as bs else false

/-- Modelled from the spec: the selection order "overall_score descending,
tie-break by rule id ascending", as a boolean total preorder. -/
def specTieLeB (a b : EvaluatedRule) : Bool :=
  decide (b.overall_score < a.overall_score) ||
    (decide (a.overall_score = b.overall_score) && ((a.id == b.id) || strLtB a.id.data b.id.data))

/-- Propositional form of `specTieLeB`. -/
def specTieRel (a b : EvaluatedRule) : Prop := specTieLeB a b = true

instance : DecidableRel specTieRel :=
  fun _a _b => inferInstanceAs (Decidable (_ = true))

/-- Modelled from the spec: sort by score descending with id tie-break,
keep the top N, then keep the rules inside the coverage band. -/
def specSelectRules (cfg : EvalConfig) (rules : List EvaluatedRule) :
    List EvaluatedRule :=
  bandFilterLoop (minCov cfg) (maxCov cfg)
    ((List.insertionSort specTieRel rules).take (topN cfg))

/-! ### Concrete inputs used by the claim theorems -/

/-- Rule used for claim C1: declares variable `a`; the record `{}` of the
claim lacks it. -/
def c1Rule : RuleDefinition :=
  ⟨"R_C1", "fires when a is positive", "a > 0", [("a", "current ratio")], "annual", "all"⟩

/-- Rule used for claim C2: contains a division whose denominator is the
record variable `b`. -/
def c2Rule : RuleDefinition :=
  ⟨"R_C2", "ratio threshold", "a / b > 1", [("a", "debt"), ("b", "assets")], "annual", "all"⟩

/-- Rule used for claim C4: literal zero as the right operand of `/`. -/
def c4Rule : RuleDefinition :=
  ⟨"R_C4", "divides by literal zero", "a / 0 > 1", [("a", "total assets")], "annual", "all"⟩

/-- Rule used for claim C6: the identifier `Qx_y` is not declared and does
not match the documented `Q<number>_<base>_industry` pattern, yet starts
with `Q` and contains an underscore. -/
def c6Rule : RuleDefinition :=
  ⟨"R_C6", "quantile-like reference", "Qx_y > 30", [], "annual", "manufacturing"⟩

/-- First rule of the claim C9 batch. -/
def c9Rule1 : RuleDefinition :=
  ⟨"R_C9_1", "first rule", "a > 20", [("a", "metric a")], "annual", "all"⟩

/-- Second rule of the claim C9 batch. -/
def c9Rule2 : RuleDefinition :=
  ⟨"R_C9_2", "second rule", "b < 5", [("b", "metric b")], "annual", "all"⟩

/-- Rule used for claim C10. -/
def c10Rule : RuleDefinition :=
  ⟨"R_C10", "tenth rule", "c > 1", [("c", "metric c")], "annual", "all"⟩

/-- Configuration with every key absent: the evaluator defaults apply. -/
def c7DefaultConfig : EvalConfig := ⟨none, none, none⟩

/-- Evaluated rule with id "b": equal score to `c7RuleA`, in-band coverage,
listed first in the claim C7 input. -/
def c7RuleB : EvaluatedRule :=
  ⟨"b", 1, [("coverage", mkRat 1 20), ("anomaly_lift", 1), ("stability", mkRat 8 10),
            ("specificity", mkRat 7 10), ("consistency", mkRat 6 10)]⟩

/-- Evaluated rule with id "a": equal score to `c7RuleB`, in-band coverage,
listed second in the claim C7 input. -/
def c7RuleA : EvaluatedRule :=
  ⟨"a", 1, [("coverage", mkRat 1 20), ("anomaly_lift", 1), ("stability", mkRat 8 10),
            ("specificity", mkRat 7 10), ("consistency", mkRat 6 10)]⟩

/-! ### Helper lemmas -/

/-- Scanning the fixed prefix of `func_code` already reaches an indented
first token (the `d` of `def` after a newline and eight spaces), whatever
follows. -/
theorem firstTokenIndentedAux_funcCodeA (rest : List Char) :
    firstTokenIndentedAux false (funcCodeA.data ++ rest) = true := rfl

/-- The generated `func_code` is flagged as indented for every interpolated
expression. -/
theorem pyExecIndentErr_funcCode (python_expr : String) :
    pyExecIndentErr (funcCode python_expr) = true := by
  show firstTokenIndentedAux false (funcCode python_expr).data = true
  have h : (funcCode python_expr).data =
      funcCodeA.data ++ (python_expr.data ++ funcCodeB.data) := by
    simp [funcCode, String.data_append, List.append_assoc]
  rw [h]
  exact firstTokenIndentedAux_funcCodeA _

/-- `_create_execution_function` raises IndentationError on every input:
`exec` receives a module whose first statement is indented. -/
theorem createExecutionFunction_always_errors (python_expr : String)
    (variables_used : List (String × String)) :
    createExecutionFunction python_expr variables_used =
      Except.error PyError.indentationError := by
  simp [createExecutionFunction, pyExecIndentErr_funcCode]

/-- The selection loop of `_select_optimal_rules` is the order-preserving
filter by the coverage band. -/
theorem bandFilterLoop_eq_filter (mn mx : ℚ) (l : List EvaluatedRule) :
    bandFilterLoop mn mx l = l.filter (inBand mn mx) := by
  induction l with
  | nil => rfl
  | cons r rs ih => cases h : inBand mn mx r <;> simp [bandFilterLoop, List.filter_cons, h, ih]

/-- The early-return loop of `_validate_variable_references` accepts exactly
when every extracted identifier passes the skip-or-declared test. -/
theorem checkVariablesLoop_eq_all (vars : List (String × String)) (l : List String) :
    checkVariablesLoop vars l = l.all (fun v => qVarSkip v || keyMem vars v) := by
  induction l with
  | nil => rfl
  | cons v vs ih =>
    cases hq : qVarSkip v <;> cases hk : keyMem vars v <;>
      simp [checkVariablesLoop, hq, hk, ih]

/-! ### Claim theorems -/

/-- C1: the claim states that a compiled predicate applied to a record
lacking a referenced variable returns false and never raises.  In the code
no predicate is ever produced: for the concrete rule declaring variable `a`
(whose records may lack `a`), validation succeeds, but
`_create_execution_function` raises IndentationError, because the exec-ed
`func_code` module is indented; the generated text that would have returned
False for a missing variable is never turned into a function.  (Even if the
exec succeeded, the function body resolves `variables_used` and `logger`
from the empty exec namespace, so a call would raise NameError.) -/
theorem claim_C1_no_predicate_for_missing_variable_rule :
    validateRule c1Rule = true ∧
    createExecutionFunction (translateToPython c1Rule.dsl) c1Rule.variables_used =
      Except.error PyError.indentationError :=
  ⟨rfl, createExecutionFunction_always_errors _ _⟩

/-- C2: the claim states that a division whose runtime denominator is zero
produces a propagating undefined sentinel and false comparisons, without
raising.  The code has no sentinel value at all: the rule `a / b > 1`
passes validation (the static check flags only the textual patterns `/0`
and `/ 0`), and compilation then raises IndentationError before any
division semantics could apply. -/
theorem claim_C2_no_predicate_for_division_rule :
    validateRule c2Rule = true ∧
    hasDivisionByZeroRisk c2Rule.dsl = false ∧
    createExecutionFunction (translateToPython c2Rule.dsl) c2Rule.variables_used =
      Except.error PyError.indentationError :=
  ⟨rfl, rfl, createExecutionFunction_always_errors _ _⟩

/-- C3 counterexample: the claim asserts that compiling `a > 0 || b > 0`
yields a predicate that returns true on a record containing `a > 0` and
lacking `b`.  No such predicate exists: the compilation of exactly this
expression returns the IndentationError outcome, not a function. -/
theorem claim_C3_counterexample :
    createExecutionFunction (translateToPython "a > 0 || b > 0")
      [("a", "first operand"), ("b", "second operand")] =
      Except.error PyError.indentationError :=
  createExecutionFunction_always_errors _ _

/-- C3 amended: the DSL operators `&&`/`||` are translated to CPython
short-circuiting `and`/`or` inside the `python_expression` string, but the
compiler produces no predicate for any input — `_create_execution_function`
raises IndentationError unconditionally — so no short-circuit behaviour (and
no skipping of the right operand variable requirements) is ever observable;
in particular the claimed true result cannot occur. -/
theorem claim_C3_translation_but_no_predicate :
    (∀ (e : String) (v : List (String × String)),
      createExecutionFunction e v = Except.error PyError.indentationError) ∧
    translateToPython "a > 0 || b > 0" = "a > 0  or  b > 0" :=
  ⟨fun e v => createExecutionFunction_always_errors e v, rfl⟩

/-- C4 counterexample: the rule with DSL `a / 0 > 1` has a literal zero as
the syntactic right operand of `/`, `_has_division_by_zero_risk` detects
it, and yet `validate_rule` returns True — the rule is not rejected and no
DivisionByZeroError exists in the code. -/
theorem claim_C4_counterexample :
    validateRule c4Rule = true ∧ hasDivisionByZeroRisk c4Rule.dsl = true :=
  ⟨rfl, rfl⟩

/-- C4 amended: a literal-zero divisor (textual `/0` or `/ 0`) is detected
by `_has_division_by_zero_risk`, but the detection only logs a warning: for
every rule whose DSL passes the syntax and variable checks, validation
succeeds despite the detected hazard. -/
theorem claim_C4_division_risk_only_warns (rule : RuleDefinition)
    (_hrisk : hasDivisionByZeroRisk rule.dsl = true)
    (hsyn : validateDslSyntaxOk rule.dsl = true)
    (hvars : validateVariableReferences rule.dsl rule.variables_used = true) :
    validateRule rule = true := by
  simp [validateRule, hsyn, hvars]

/-- C4 witness: the amended statement applied to the concrete rule
`a / 0 > 1`. -/
theorem claim_C4_witness :
    hasDivisionByZeroRisk c4Rule.dsl = true ∧ validateRule c4Rule = true :=
  ⟨by decide, claim_C4_division_risk_only_warns c4Rule (by decide) (by decide) (by decide)⟩

/-- C5: the claim states that syntax checking accepts every
grammar-conforming expression (naming `!=` explicitly) and rejects empty
expressions and wrong function arity.  The code diverges three times: the
substitution `replace('!', ' not ')` mangles `a != b` into `a  not = b`,
which `ast.parse` rejects, although `!=` is in the compiler's own
`allowed_operators`; the empty DSL is accepted (`ast.parse("")` is an empty
module); and the wrong-arity call `abs(1, 2)` is accepted (`ast.parse`
checks no arity). -/
theorem claim_C5_syntax_check_divergences :
    validateDslSyntaxOk "a != b" = false ∧
    allowedOperators.contains "!=" = true ∧
    translateToPython "a != b" = "a  not = b" ∧
    validateDslSyntaxOk "" = true ∧
    validateDslSyntaxOk "abs(1, 2)" = true :=
  ⟨rfl, rfl, rfl, rfl, rfl⟩

/-- C6 counterexample: the identifier `Qx_y` is not a key of
`variables_used` and does not match the reserved pattern
`Q<number>_<base>_industry`, yet validation accepts the rule, because the
code only tests `startswith('Q') and '_' in var`. -/
theorem claim_C6_counterexample :
    validateRule c6Rule = true ∧
    variablesInDsl c6Rule.dsl = ["Qx_y"] ∧
    specQuantileRefPattern "Qx_y" = false ∧
    keyMem c6Rule.variables_used "Qx_y" = false :=
  ⟨rfl, rfl, rfl, rfl⟩

/-- C6 amended: the variable-closure check accepts a DSL exactly when every
extracted identifier (word matches minus the keyword and function names) is
either a key of `variables_used` or merely starts with `Q` and contains an
underscore — a strictly weaker test than the documented
`Q<number>_<base>_industry` pattern; on failure the function returns False
(logging the offending name) rather than raising an UnknownVariableError
value. -/
theorem claim_C6_variable_check_characterization (dsl : String)
    (vars : List (String × String)) :
    validateVariableReferences dsl vars =
      (variablesInDsl dsl).all (fun v => qVarSkip v || keyMem vars v) :=
  checkVariablesLoop_eq_all vars (variablesInDsl dsl)

/-- C7 counterexample: two rules with equal scores and in-band coverages,
listed with id "b" before id "a".  The code keeps the input order of the
tie (stable sort by score only); the specified id-ascending tie-break would
swap them.  The third conjunct records that the two outcomes differ. -/
theorem claim_C7_counterexample :
    evaluateAndSelectRules c7DefaultConfig [c7RuleB, c7RuleA] = [c7RuleB, c7RuleA] ∧
    specSelectRules c7DefaultConfig [c7RuleB, c7RuleA] = [c7RuleA, c7RuleB] ∧
    decide (evaluateAndSelectRules c7DefaultConfig [c7RuleB, c7RuleA] =
      specSelectRules c7DefaultConfig [c7RuleB, c7RuleA]) = false := by
  refine ⟨by decide, by decide, by decide⟩

/-- C7 amended: selection stable-sorts by `overall_score` descending with
ties kept in input order (no id tie-break), takes the first
`top_n_rules` (default 10), and then drops, in order and without
re-filling, the rules whose coverage lies outside the closed band
`[min_coverage, max_coverage]` (defaults 0.02 and 0.08); the result is a
band-conforming list of length at most N. -/
theorem claim_C7_selection_behaviour (cfg : EvalConfig) (rules : List EvaluatedRule) :
    (pySortByScoreDesc rules).Perm rules ∧
    (pySortByScoreDesc rules).Pairwise
      (fun a b => b.overall_score ≤ a.overall_score) ∧
    evaluateAndSelectRules cfg rules =
      ((pySortByScoreDesc rules).take (topN cfg)).filter (inBand (minCov cfg) (maxCov cfg)) ∧
    (evaluateAndSelectRules cfg rules).length ≤ topN cfg ∧
    (evaluateAndSelectRules cfg rules).all (inBand (minCov cfg) (maxCov cfg)) = true ∧
    topN c7DefaultConfig = 10 ∧ minCov c7DefaultConfig = mkRat 2 100 ∧
      maxCov c7DefaultConfig = mkRat 8 100 := by
  have heq : evaluateAndSelectRules cfg rules =
      ((pySortByScoreDesc rules).take (topN cfg)).filter (inBand (minCov cfg) (maxCov cfg)) := by
    simp [evaluateAndSelectRules, selectOptimalRules, bandFilterLoop_eq_filter]
  refine ⟨List.perm_insertionSort scoreDescRel rules, ?_, heq, ?_, ?_, rfl, rfl, rfl⟩
  · exact List.Pairwise.imp (fun h => of_decide_eq_true h)
      (List.sorted_insertionSort scoreDescRel rules)
  · rw [heq]
    exact le_trans (List.length_filter_le _ _) (List.length_take_le _ _)
  · rw [heq]
    refine List.all_eq_true.mpr ?_
    intro x hx
    exact (List.mem_filter.mp hx).2

/-- C8: the overall score is the weighted sum, over the five metrics, of
the weight times the metric value clamped to [0, 1]; the clamp
`max(0.0, min(1.0, value))` applies whatever the raw value is, and the
score is a pure function of the two dicts. -/
theorem claim_C8_overall_score (wc wa ws wsp wco c a s sp co : ℚ) :
    calculateOverallScore
        [("coverage", wc), ("anomaly_lift", wa), ("stability", ws), ("specificity", wsp),
         ("consistency", wco)]
        [("coverage", c), ("anomaly_lift", a), ("stability", s), ("specificity", sp),
         ("consistency", co)] =
      wc * clamp01 c + wa * clamp01 a + ws * clamp01 s + wsp * clamp01 sp + wco * clamp01 co ∧
    clamp01 c = max 0 (min 1 c) ∧ 0 ≤ clamp01 c ∧ clamp01 c ≤ 1 := by
  refine ⟨?_, ?_, ?_, ?_⟩
  · simp [calculateOverallScore, lookupMetric]
    ring
  · simp [clamp01, pyMax, pyMin, max_def, min_def]
  · unfold clamp01 pyMax pyMin
    split_ifs <;> linarith
  · unfold clamp01 pyMax pyMin
    split_ifs <;> linarith

/-- C9: the claim states that one rule's validation, compilation or
execution error never aborts the remaining rules, and that compilation
fails only with UnsupportedConstructError.  In the code both valid rules of
the batch pass validation, the first call to `compile_rule` raises
IndentationError (no UnsupportedConstructError exists anywhere), the stage
4 loop of `run_pipeline` has no per-rule handler, and the surrounding `try`
re-raises, so the whole batch aborts with no rule evaluated. -/
theorem claim_C9_first_compile_error_aborts_batch :
    validateRule c9Rule1 = true ∧ validateRule c9Rule2 = true ∧
    compileStage [c9Rule1, c9Rule2] = Except.error PyError.indentationError :=
  ⟨rfl, rfl, rfl⟩

/-- C10: the claim states that `compile_rule` returns the input mapping
plus exactly the keys `python_expression` and `execute_function`.  The
code performs `rule.copy()` and would add exactly those two keys, but
`_create_execution_function` raises IndentationError on every input, so
`compile_rule` never returns a mapping at all. -/
theorem claim_C10_compile_rule_never_returns :
    compileRule c10Rule = Except.error PyError.indentationError := rfl

end RiskMining
